import Mathlib

set_option maxHeartbeats 1000000

/-!
Shallow embedding of the Privara HIDS backend (src/server.py) and proofs about
the metrics / scoring / configuration pipeline.

Conventions used throughout:
* Python floats and ints are modelled as rationals (ℚ) resp. integers (ℤ); no
  floating point behaviour is relied upon by any statement below.
* Python dictionaries are association lists with first-occurrence lookup; real
  Python dictionaries never carry duplicate keys, which is tracked where needed
  by an explicit distinct-keys invariant.
* Python exceptions are modelled with the Except monad; an operation that can
  raise returns `Except Unit α` and the surrounding try/except blocks become
  matches on that result.
-/

/-- Model of a Python value as it appears in this server's JSON/dict traffic. -/
inductive PyVal where
  | num (q : ℚ)
  | bool (b : Bool)
  | str (s : String)
  | none
  | dict (l : List (String × PyVal))
  | list (l : List PyVal)

/-- List prefix test: does the first character list stand at the head of the second? -/
def listStarts : List Char → List Char → Bool
  | [], _ => true
  | _ :: _, [] => false
  | a :: as, b :: bs => a == b && listStarts as bs

/-- Python's substring operator on strings (`k in s`): does the needle occur
contiguously somewhere in the haystack? -/
def listHasSub (n : List Char) : List Char → Bool
  | [] => n.isEmpty
  | c :: t => listStarts n (c :: t) || listHasSub n t

/-- Python str.lower, restricted to ASCII case folding (every scoring keyword is ASCII). -/
def pyLower (s : String) : List Char :=
  s.toList.map Char.toLower

/-- The fixed keyword set of Khepri-ML v0.2 (src/server.py line 276). -/
def suspicious_keywords : List String :=
  ["miner", "crypt", "rat", "remote", "shell", "powershell", "cmd.exe", "nc.exe", "keylog", "exploit"]

/-- Python truthiness of an optional numeric argument (None and 0 are falsy). -/
def truthyQ : Option ℚ → Bool
  | Option.none => false
  | some q => q != 0

/-- src/server.py compute_risk_and_verdict (lines 274-307): keyword match on the
lowercased name gives +40, a cpu reading above 80 gives +40 (else above 40 gives
+20), a memory reading above 20 gives +20, the sum is clamped to 100 and mapped
to a verdict through the 70/40/10 thresholds.  The result carries the fixed
engine tag.  The name defaults to the empty string when None, and the cpu/mem
blocks are guarded by Python truthiness. -/
def compute_risk_and_verdict (name : Option String) (cpu mem : Option ℚ) : ℕ × String × String :=
  let lower_name := pyLower (name.getD (""))
  let nameScore : ℕ :=
    if suspicious_keywords.any (fun k => listHasSub k.toList lower_name) then 40 else 0
  let cpuScore : ℕ :=
    if truthyQ cpu then
      if cpu.getD 0 > 80 then 40 else if cpu.getD 0 > 40 then 20 else 0
    else 0
  let memScore : ℕ :=
    if truthyQ mem then (if mem.getD 0 > 20 then 20 else 0) else 0
  let score := min (nameScore + cpuScore + memScore) 100
  let verdict :=
    if score ≥ 70 then ("Critical")
    else if score ≥ 40 then ("Suspicious")
    else if score ≥ 10 then ("Elevated")
    else ("Benign")
  (score, verdict, ("Khepri-ML v0.2"))

/-- The risk scorer exactly as the specification words it: 40 when any keyword of
the fixed set occurs as a case-insensitive substring of the name, plus the
mutually exclusive cpu tiers (above 80 gives 40, else above 40 gives 20), plus 20
when mem is above 20, clamped to at most 100; the verdict thresholds 70/40/10 are
checked highest to lowest, first match wins; the engine id is a fixed tag. -/
def specRisk (name : String) (cpu mem : ℚ) : ℕ × String × String :=
  let nameScore : ℕ :=
    if suspicious_keywords.any (fun k => listHasSub k.toList (pyLower name)) then 40 else 0
  let cpuScore : ℕ := if cpu > 80 then 40 else if cpu > 40 then 20 else 0
  let memScore : ℕ := if mem > 20 then 20 else 0
  let score := min (nameScore + cpuScore + memScore) 100
  let verdict :=
    if score ≥ 70 then ("Critical")
    else if score ≥ 40 then ("Suspicious")
    else if score ≥ 10 then ("Elevated")
    else ("Benign")
  (score, verdict, ("Khepri-ML v0.2"))

/-- C1: for every input (name, cpu, mem) the risk scorer agrees with the reference
definition taken from the specification, and in particular on
name powershell.exe, cpu 50, mem 25 it returns score 80 with verdict Critical. -/
theorem risk_scorer_matches_reference :
    (∀ (name : String) (cpu mem : ℚ),
      compute_risk_and_verdict (some name) (some cpu) (some mem) = specRisk name cpu mem) ∧
    compute_risk_and_verdict (some ("powershell.exe")) (some 50) (some 25)
      = (80, ("Critical"), ("Khepri-ML v0.2")) := by
  constructor
  · intro name cpu mem
    unfold compute_risk_and_verdict specRisk truthyQ
    by_cases hc : cpu = 0
    · by_cases hm : mem = 0
      · subst hc; subst hm; norm_num
      · subst hc; simp [hm]; norm_num
    · by_cases hm : mem = 0
      · subst hm; simp [hc]; norm_num
      · simp [hc, hm]
  · rfl

/-- The metrics record produced by get_*_info in src/server.py: os tag, cpu and
memory utilisation percentages, available memory in MB and the cumulative disk
read / write counters in MB. -/
structure SysInfo where
  os : String
  cpu_percent : ℚ
  memory_percent : ℚ
  memory_available_mb : ℚ
  disk_io : ℚ
  disk_io_write : ℚ

/-- One successful round of psutil readings as consumed by the native samplers:
cpu_percent, virtual_memory().percent, virtual_memory().available (bytes) and
the optional disk_io_counters() read/write byte totals (psutil may return None
for the disk counters). -/
structure NativeRead where
  cpu : ℚ
  vm_percent : ℚ
  vm_available : ℚ
  disk : Option (ℚ × ℚ)

/-- The five draws produced by random.uniform inside get_fake_info; each call of
random.uniform(a, b) yields a value N with a ≤ N ≤ b, which is the hypothesis
FakeInBands below. -/
structure FakeDraws where
  cpu : ℚ
  mem : ℚ
  avail : ℚ
  dread : ℚ
  dwrite : ℚ

/-- The random.uniform contract for the five draws of get_fake_info. -/
def FakeInBands (d : FakeDraws) : Prop :=
  5 ≤ d.cpu ∧ d.cpu ≤ 35 ∧ 40 ≤ d.mem ∧ d.mem ≤ 70 ∧
  2000 ≤ d.avail ∧ d.avail ≤ 8000 ∧ 10 ≤ d.dread ∧ d.dread ≤ 100 ∧
  5 ≤ d.dwrite ∧ d.dwrite ≤ 50

/-- src/server.py get_fake_info (lines 260-270): the synthetic fallback built
from the five uniform draws. -/
def get_fake_info (d : FakeDraws) : SysInfo :=
  { os := ("Simulated (Fallback)")
    cpu_percent := d.cpu
    memory_percent := d.mem
    memory_available_mb := d.avail
    disk_io := d.dread
    disk_io_write := d.dwrite }

/-- Shape of the dict built by the three native samplers from a successful
psutil reading: bytes are converted to MB and a missing disk counter object
yields 0 for both disk figures. -/
def mkNativeInfo (osName : String) (r : NativeRead) : SysInfo :=
  { os := osName
    cpu_percent := r.cpu
    memory_percent := r.vm_percent
    memory_available_mb := r.vm_available / (1024 ^ 2)
    disk_io := match r.disk with
      | some p => p.1 / (1024 ^ 2)
      | Option.none => 0
    disk_io_write := match r.disk with
      | some p => p.2 / (1024 ^ 2)
      | Option.none => 0 }

/-- src/server.py get_manjaro_info (lines 209-224): build the metrics dict from
the psutil reading, catching any sampling exception and answering with the
synthetic fallback instead. -/
def get_manjaro_info (native : Except Unit NativeRead) (d : FakeDraws) : Except Unit SysInfo :=
  match native with
  | .ok r => .ok (mkNativeInfo ("Manjaro Linux") r)
  | .error _ => .ok (get_fake_info d)

/-- src/server.py get_windows_info (lines 226-241), same catch-all structure. -/
def get_windows_info (native : Except Unit NativeRead) (d : FakeDraws) : Except Unit SysInfo :=
  match native with
  | .ok r => .ok (mkNativeInfo ("Windows 11") r)
  | .error _ => .ok (get_fake_info d)

/-- src/server.py get_linux_generic_info (lines 243-258), same catch-all
structure; the os tag carries the kernel release string. -/
def get_linux_generic_info (release : String) (native : Except Unit NativeRead)
    (d : FakeDraws) : Except Unit SysInfo :=
  match native with
  | .ok r => .ok (mkNativeInfo (("Linux (") ++ release ++ (")")) r)
  | .error _ => .ok (get_fake_info d)

/-- src/server.py get_system_info (lines 196-207): dispatch on the OS detected at
start-up, with an outer try/except that also falls back to get_fake_info. -/
def get_system_info (isManjaro isWindows : Bool) (release : String)
    (native : Except Unit NativeRead) (d : FakeDraws) : Except Unit SysInfo :=
  match (if isManjaro then get_manjaro_info native d
         else if isWindows then get_windows_info native d
         else get_linux_generic_info release native d) with
  | .ok i => .ok i
  | .error _ => .ok (get_fake_info d)

/-- C2: get_system_info answers with .ok for every outcome of the underlying
psutil sampling (every exception is caught at the sampler boundary), and when
the native sampling fails it answers exactly with the synthetic fallback, whose
fields stay inside the synthetic bands. -/
theorem get_system_info_never_raises (isManjaro isWindows : Bool) (release : String)
    (native : Except Unit NativeRead) (d : FakeDraws) (hd : FakeInBands d) :
    (get_system_info isManjaro isWindows release native d).isOk = true ∧
    (∀ e, native = .error e →
      get_system_info isManjaro isWindows release native d = .ok (get_fake_info d) ∧
      5 ≤ (get_fake_info d).cpu_percent ∧ (get_fake_info d).cpu_percent ≤ 35 ∧
      40 ≤ (get_fake_info d).memory_percent ∧ (get_fake_info d).memory_percent ≤ 70 ∧
      2000 ≤ (get_fake_info d).memory_available_mb ∧ (get_fake_info d).memory_available_mb ≤ 8000 ∧
      10 ≤ (get_fake_info d).disk_io ∧ (get_fake_info d).disk_io ≤ 100 ∧
      5 ≤ (get_fake_info d).disk_io_write ∧ (get_fake_info d).disk_io_write ≤ 50) := by
  obtain ⟨h1, h2, h3, h4, h5, h6, h7, h8, h9, h10⟩ := hd
  constructor
  · cases native <;> cases isManjaro <;> cases isWindows <;>
      simp [get_system_info, get_manjaro_info, get_windows_info, get_linux_generic_info,
        Except.isOk, Except.toBool]
  · intro e he
    subst he
    refine ⟨?_, h1, h2, h3, h4, h5, h6, h7, h8, h9, h10⟩
    cases isManjaro <;> cases isWindows <;>
      simp [get_system_info, get_manjaro_info, get_windows_info, get_linux_generic_info]

/-- Witness for C2 at a concrete failing sampler and concrete in-band draws. -/
theorem get_system_info_never_raises_witness :
    (get_system_info true false ("6.1") (.error ()) ⟨20, 55, 4000, 50, 20⟩).isOk = true ∧
    (∀ e, (.error () : Except Unit NativeRead) = .error e →
      get_system_info true false ("6.1") (.error ()) ⟨20, 55, 4000, 50, 20⟩
        = .ok (get_fake_info ⟨20, 55, 4000, 50, 20⟩) ∧
      5 ≤ (get_fake_info ⟨20, 55, 4000, 50, 20⟩).cpu_percent ∧
      (get_fake_info ⟨20, 55, 4000, 50, 20⟩).cpu_percent ≤ 35 ∧
      40 ≤ (get_fake_info ⟨20, 55, 4000, 50, 20⟩).memory_percent ∧
      (get_fake_info ⟨20, 55, 4000, 50, 20⟩).memory_percent ≤ 70 ∧
      2000 ≤ (get_fake_info ⟨20, 55, 4000, 50, 20⟩).memory_available_mb ∧
      (get_fake_info ⟨20, 55, 4000, 50, 20⟩).memory_available_mb ≤ 8000 ∧
      10 ≤ (get_fake_info ⟨20, 55, 4000, 50, 20⟩).disk_io ∧
      (get_fake_info ⟨20, 55, 4000, 50, 20⟩).disk_io ≤ 100 ∧
      5 ≤ (get_fake_info ⟨20, 55, 4000, 50, 20⟩).disk_io_write ∧
      (get_fake_info ⟨20, 55, 4000, 50, 20⟩).disk_io_write ≤ 50) :=
  get_system_info_never_raises true false ("6.1") (.error ()) ⟨20, 55, 4000, 50, 20⟩
    (by constructor <;> norm_num [FakeInBands])

/-- First-occurrence lookup in a Python dict modelled as an association list. -/
def dictGet? : List (String × PyVal) → String → Option PyVal
  | [], _ => Option.none
  | (k, v) :: t, key => if k = key then some v else dictGet? t key

/-- Python dict.get(key, default). -/
def dictGetD (l : List (String × PyVal)) (key : String) (d : PyVal) : PyVal :=
  (dictGet? l key).getD d

/-- Python `key in d`. -/
def dictHas (l : List (String × PyVal)) (key : String) : Bool :=
  (dictGet? l key).isSome

/-- Python item assignment d[key] = v: replace the value at the first binding of
key, or append a fresh binding. -/
def dictSet : List (String × PyVal) → String → PyVal → List (String × PyVal)
  | [], key, v => [(key, v)]
  | (k, w) :: t, key, v => if k = key then (k, v) :: t else (k, w) :: dictSet t key v

/-- Python dict.update(u): assign every binding of u, in order. -/
def dictUpdate (d u : List (String × PyVal)) : List (String × PyVal) :=
  u.foldl (fun acc kv => dictSet acc kv.1 kv.2) d

/-- A Python dict never carries a duplicate key; association lists with this
property model dict objects exactly. -/
def keysDistinct : List (String × PyVal) → Bool
  | [] => true
  | (k, _) :: t => !(t.any (fun kv => kv.1 == k)) && keysDistinct t

/-- Numeric view taken by Python's comparison operators: ints/floats stand for
themselves and booleans for 0/1; any other operand makes the comparison raise
TypeError. -/
def pyNumVal : PyVal → Option ℚ
  | .num q => some q
  | .bool b => some (if b then 1 else 0)
  | _ => Option.none

/-- Python int() on a float truncates toward zero. -/
def ratTrunc (q : ℚ) : ℤ := q.num.tdiv (q.den : ℤ)

/-- Accumulating base-10 value of a run of ASCII digits. -/
def digitsToNat? : List Char → ℕ → Option ℕ
  | [], acc => some acc
  | c :: t, acc =>
    if 48 ≤ c.toNat ∧ c.toNat ≤ 57 then digitsToNat? t (acc * 10 + (c.toNat - 48))
    else Option.none

/-- Python int() on a string: an optional sign followed by one or more ASCII
digits (exotic literal forms such as underscores, surrounding whitespace or
non-ASCII digits are not modelled); anything else raises ValueError. -/
def pyStrToInt? : List Char → Option ℤ
  | [] => Option.none
  | c :: t =>
    if c = ('-' : Char) then
      match t with
      | [] => Option.none
      | _ => (digitsToNat? t 0).map (fun n => -(n : ℤ))
    else if c = ('+' : Char) then
      match t with
      | [] => Option.none
      | _ => (digitsToNat? t 0).map (fun n => (n : ℤ))
    else (digitsToNat? (c :: t) 0).map (fun n => (n : ℤ))

/-- Python int(x): ints/floats truncate toward zero, booleans give 0/1, a string
must spell an integer literal (otherwise ValueError), anything else raises
TypeError. -/
def pyInt : PyVal → Except Unit ℤ
  | .num q => .ok (ratTrunc q)
  | .bool b => .ok (if b then 1 else 0)
  | .str s =>
    match pyStrToInt? s.toList with
    | some n => .ok n
    | Option.none => .error ()
  | _ => .error ()

/-- max(1, min(3600, interval)) as Python evaluates it: comparing a non-numeric
interval with an int raises TypeError; min and max hand back the winning operand
itself and the int bound otherwise (Python max keeps the first operand on a
tie). -/
def clampInterval (v : PyVal) : Except Unit PyVal :=
  match pyNumVal v with
  | Option.none => .error ()
  | some q =>
    let m : PyVal := if q < 3600 then v else .num 3600
    let qm : ℚ := (pyNumVal m).getD q
    .ok (if 1 < qm then m else .num 1)

/-- max(0, min(100, int(value))) for a threshold entry (src/server.py line 138). -/
def clampThreshold (v : PyVal) : Except Unit PyVal :=
  (pyInt v).map (fun n => .num ((max 0 (min 100 n) : ℤ) : ℚ))

/-- max(1, min(365, int(retention))) for the log retention (src/server.py line 143). -/
def clampRetention (v : PyVal) : Except Unit PyVal :=
  (pyInt v).map (fun n => .num ((max 1 (min 365 n) : ℤ) : ℚ))

/-- Content of the monitoring section dict. -/
structure MonitoringS where
  enabled : PyVal
  interval_seconds : PyVal

/-- Content of the thresholds section dict. -/
structure ThresholdsS where
  cpu_alert : PyVal
  memory_alert : PyVal
  disk_alert : PyVal

/-- Content of the logging section dict. -/
structure LoggingS where
  enabled : PyVal
  retention_days : PyVal
  level : PyVal

/-- The four nested section dicts of DEFAULT_CONFIG.  validate_config copies the
top level only shallowly (DEFAULT_CONFIG.copy()), so these section objects are
shared between DEFAULT_CONFIG and every validated config: they are the state the
validator reads and writes in place. -/
structure Sections where
  monitoring : MonitoringS
  thresholds : ThresholdsS
  logging : LoggingS
  ui : List (String × PyVal)

/-- src/server.py DEFAULT_CONFIG (lines 93-112), the initial section contents. -/
def defaultSections : Sections :=
  { monitoring := { enabled := .bool true, interval_seconds := .num 10 }
    thresholds := { cpu_alert := .num 80, memory_alert := .num 85, disk_alert := .num 90 }
    logging := { enabled := .bool true, retention_days := .num 90, level := .str ("INFO") }
    ui := [(("theme"), .str ("Tech Noir")), (("timezone"), .str ("GMT"))] }

/-- The monitoring block of validate_config (lines 129-132): when the input has a
monitoring dict, write its enabled flag (default True) and the clamped interval
(default 10) into the shared section; otherwise the section keeps its values. -/
def validateMonitoring (s : MonitoringS) (config : List (String × PyVal)) :
    Except Unit MonitoringS :=
  match dictGet? config ("monitoring") with
  | some (.dict m) =>
    (clampInterval (dictGetD m ("interval_seconds") (.num 10))).map
      (fun iv => { enabled := dictGetD m ("enabled") (.bool true), interval_seconds := iv })
  | _ => .ok s

/-- One iteration of the thresholds loop (line 135-138): a key present in the
input dict is clamped, an absent key keeps the shared section's value. -/
def threshStep (old : PyVal) (entry : Option PyVal) : Except Unit PyVal :=
  match entry with
  | some v => clampThreshold v
  | Option.none => Except.ok old

/-- The thresholds block of validate_config (lines 134-138): the three alert keys
are processed in order. -/
def validateThresholds (s : ThresholdsS) (config : List (String × PyVal)) :
    Except Unit ThresholdsS :=
  match dictGet? config ("thresholds") with
  | some (.dict t) => do
    let c ← threshStep s.cpu_alert (dictGet? t ("cpu_alert"))
    let m ← threshStep s.memory_alert (dictGet? t ("memory_alert"))
    let d ← threshStep s.disk_alert (dictGet? t ("disk_alert"))
    Except.ok { cpu_alert := c, memory_alert := m, disk_alert := d }
  | _ => .ok s

/-- The logging block of validate_config (lines 140-144). -/
def validateLogging (s : LoggingS) (config : List (String × PyVal)) :
    Except Unit LoggingS :=
  match dictGet? config ("logging") with
  | some (.dict lg) =>
    (clampRetention (dictGetD lg ("retention_days") (.num 90))).map
      (fun rv =>
        { enabled := dictGetD lg ("enabled") (.bool true)
          retention_days := rv
          level := dictGetD lg ("level") (.str ("INFO")) })
  | _ => .ok s

/-- The ui block of validate_config (lines 146-147): merged key for key, no
range checks. -/
def validateUi (u : List (String × PyVal)) (config : List (String × PyVal)) :
    List (String × PyVal) :=
  match dictGet? config ("ui") with
  | some (.dict w) => dictUpdate u w
  | _ => u

/-- src/server.py validate_config (lines 125-149).  The state parameter s is the
content of the shared section dicts (initially DEFAULT_CONFIG); the result is at
once the returned config and the new content of those shared dicts.  When a
clamp raises, the Python original leaves the sections written so far mutated; no
claim below observes the state after a raised call, so the model reports only
the exception. -/
def validate_config (s : Sections) (config : List (String × PyVal)) : Except Unit Sections := do
  let mon ← validateMonitoring s.monitoring config
  let th ← validateThresholds s.thresholds config
  let lg ← validateLogging s.logging config
  Except.ok { monitoring := mon, thresholds := th, logging := lg, ui := validateUi s.ui config }

/-- The dict shape of a validated config when it is handed back to the validator:
the four sections with their fixed keys, the ui dict verbatim. -/
def toRawConfig (s : Sections) : List (String × PyVal) :=
  [ (("monitoring"), .dict [(("enabled"), s.monitoring.enabled),
      (("interval_seconds"), s.monitoring.interval_seconds)])
  , (("thresholds"), .dict [(("cpu_alert"), s.thresholds.cpu_alert),
      (("memory_alert"), s.thresholds.memory_alert), (("disk_alert"), s.thresholds.disk_alert)])
  , (("logging"), .dict [(("enabled"), s.logging.enabled),
      (("retention_days"), s.logging.retention_days), (("level"), s.logging.level)])
  , (("ui"), .dict s.ui) ]

/-- An int or float within the closed interval [lo, hi]. -/
def numInRange (v : PyVal) (lo hi : ℚ) : Bool :=
  match v with
  | .num q => lo ≤ q && q ≤ hi
  | _ => false

/-- An integer number within the closed interval [lo, hi]. -/
def intInRange (v : PyVal) (lo hi : ℚ) : Bool :=
  match v with
  | .num q => q.den == 1 && (lo ≤ q && q ≤ hi)
  | _ => false

/-- State invariant maintained by the validator: the numeric fields of the shared
sections sit in their documented ranges (thresholds and retention as integers)
and the ui dict has distinct keys.  DEFAULT_CONFIG satisfies it and every
successful validation preserves it. -/
def SectionsOK (s : Sections) : Prop :=
  numInRange s.monitoring.interval_seconds 1 3600 = true ∧
  intInRange s.thresholds.cpu_alert 0 100 = true ∧
  intInRange s.thresholds.memory_alert 0 100 = true ∧
  intInRange s.thresholds.disk_alert 0 100 = true ∧
  intInRange s.logging.retention_days 1 365 = true ∧
  keysDistinct s.ui = true

/-- Did this Except-computation succeed? -/
def exceptOk {α : Type} : Except Unit α → Bool
  | .ok _ => true
  | .error _ => false

/-- The supplied fields that validate_config feeds into min/max/int() have a type
those Python operations accept: a numeric (int, float or bool) interval, and
int()-convertible threshold and retention values. -/
def rawTypeOK (config : List (String × PyVal)) : Bool :=
  (match dictGet? config ("monitoring") with
   | some (.dict m) => (pyNumVal (dictGetD m ("interval_seconds") (.num 10))).isSome
   | _ => true) &&
  (match dictGet? config ("thresholds") with
   | some (.dict t) =>
     (match dictGet? t ("cpu_alert") with
      | some v => exceptOk (pyInt v)
      | Option.none => true) &&
     (match dictGet? t ("memory_alert") with
      | some v => exceptOk (pyInt v)
      | Option.none => true) &&
     (match dictGet? t ("disk_alert") with
      | some v => exceptOk (pyInt v)
      | Option.none => true)
   | _ => true) &&
  (match dictGet? config ("logging") with
   | some (.dict lg) => exceptOk (pyInt (dictGetD lg ("retention_days") (.num 90)))
   | _ => true)

/-- A successful interval clamp always yields an int/float in [1, 3600]. -/
theorem clampInterval_spec (v w : PyVal) (h : clampInterval v = .ok w) :
    ∃ r : ℚ, w = .num r ∧ 1 ≤ r ∧ r ≤ 3600 := by
  cases v with
  | num q =>
    by_cases h36 : q < 3600
    · by_cases h1 : 1 < q
      · refine ⟨q, ?_, le_of_lt h1, le_of_lt h36⟩
        simp [clampInterval, pyNumVal, h36, h1] at h
        exact h.symm
      · refine ⟨1, ?_, le_refl 1, by norm_num⟩
        simp [clampInterval, pyNumVal, h36, h1] at h
        exact h.symm
    · refine ⟨3600, ?_, by norm_num, le_refl _⟩
      norm_num [clampInterval, pyNumVal, h36] at h
      exact h.symm
  | bool b =>
    refine ⟨1, ?_, le_refl 1, by norm_num⟩
    cases b <;> norm_num [clampInterval, pyNumVal] at h <;> exact h.symm
  | str s => simp [clampInterval, pyNumVal] at h
  | none => simp [clampInterval, pyNumVal] at h
  | dict l => simp [clampInterval, pyNumVal] at h
  | list l => simp [clampInterval, pyNumVal] at h

/-- The interval clamp succeeds on every numeric operand. -/
theorem clampInterval_isOk (v : PyVal) (h : (pyNumVal v).isSome = true) :
    ∃ w, clampInterval v = .ok w := by
  cases hv : pyNumVal v with
  | none => rw [hv] at h; simp at h
  | some q => exact ⟨_, by unfold clampInterval; rw [hv]⟩

/-- An in-range int/float interval is a fixed point of the clamp. -/
theorem clampInterval_fixed (q : ℚ) (h1 : 1 ≤ q) (h2 : q ≤ 3600) :
    clampInterval (.num q) = .ok (.num q) := by
  by_cases h36 : q < 3600
  · by_cases hgt : 1 < q
    · simp [clampInterval, pyNumVal, h36, hgt]
    · have hq : q = 1 := le_antisymm (not_lt.mp hgt) h1
      subst hq
      norm_num [clampInterval, pyNumVal]
  · have hq : q = 3600 := le_antisymm h2 (not_lt.mp h36)
    subst hq
    norm_num [clampInterval, pyNumVal]

/-- An integer rational is its own numerator. -/
theorem ratOfDenOne (q : ℚ) (h : q.den = 1) : ((q.num : ℤ) : ℚ) = q :=
  (Rat.den_eq_one_iff q).mp h

/-- A successful threshold clamp always yields an integer in [0, 100]. -/
theorem clampThreshold_spec (v w : PyVal) (h : clampThreshold v = .ok w) :
    ∃ n : ℤ, w = .num (n : ℚ) ∧ 0 ≤ n ∧ n ≤ 100 := by
  cases hpi : pyInt v with
  | error e =>
    simp only [clampThreshold, hpi, Except.map] at h
    exact Except.noConfusion h
  | ok n =>
    refine ⟨max 0 (min 100 n), ?_, le_max_left 0 _, max_le (by norm_num) (min_le_left _ _)⟩
    simp only [clampThreshold, hpi, Except.map, Except.ok.injEq] at h
    exact h.symm

/-- The threshold clamp succeeds whenever int() accepts the operand. -/
theorem clampThreshold_isOk (v : PyVal) (h : exceptOk (pyInt v) = true) :
    ∃ w, clampThreshold v = .ok w := by
  cases hpi : pyInt v with
  | error e => rw [hpi] at h; simp [exceptOk] at h
  | ok n => exact ⟨_, by simp only [clampThreshold, hpi, Except.map]; rfl⟩

/-- An in-range integer threshold is a fixed point of the clamp. -/
theorem clampThreshold_fixed (q : ℚ) (hden : q.den = 1) (h0 : 0 ≤ q) (h1 : q ≤ 100) :
    clampThreshold (.num q) = .ok (.num q) := by
  have hq := ratOfDenOne q hden
  have hnum0 : 0 ≤ q.num := by
    rw [← hq] at h0; exact_mod_cast h0
  have hnum1 : q.num ≤ 100 := by
    rw [← hq] at h1; exact_mod_cast h1
  have hcl : max 0 (min 100 q.num) = q.num := by omega
  have ht : ratTrunc q = q.num := by simp [ratTrunc, hden]
  simp only [clampThreshold, pyInt, Except.map]
  rw [ht, hcl, hq]

/-- A successful retention clamp always yields an integer in [1, 365]. -/
theorem clampRetention_spec (v w : PyVal) (h : clampRetention v = .ok w) :
    ∃ n : ℤ, w = .num (n : ℚ) ∧ 1 ≤ n ∧ n ≤ 365 := by
  cases hpi : pyInt v with
  | error e =>
    simp only [clampRetention, hpi, Except.map] at h
    exact Except.noConfusion h
  | ok n =>
    refine ⟨max 1 (min 365 n), ?_, le_max_left 1 _, max_le (by norm_num) (min_le_left _ _)⟩
    simp only [clampRetention, hpi, Except.map, Except.ok.injEq] at h
    exact h.symm

/-- The retention clamp succeeds whenever int() accepts the operand. -/
theorem clampRetention_isOk (v : PyVal) (h : exceptOk (pyInt v) = true) :
    ∃ w, clampRetention v = .ok w := by
  cases hpi : pyInt v with
  | error e => rw [hpi] at h; simp [exceptOk] at h
  | ok n => exact ⟨_, by simp only [clampRetention, hpi, Except.map]; rfl⟩

/-- An in-range integer retention is a fixed point of the clamp. -/
theorem clampRetention_fixed (q : ℚ) (hden : q.den = 1) (h0 : 1 ≤ q) (h1 : q ≤ 365) :
    clampRetention (.num q) = .ok (.num q) := by
  have hq := ratOfDenOne q hden
  have hnum0 : 1 ≤ q.num := by
    rw [← hq] at h0; exact_mod_cast h0
  have hnum1 : q.num ≤ 365 := by
    rw [← hq] at h1; exact_mod_cast h1
  have hcl : max 1 (min 365 q.num) = q.num := by omega
  have ht : ratTrunc q = q.num := by simp [ratTrunc, hden]
  simp only [clampRetention, pyInt, Except.map]
  rw [ht, hcl, hq]

/-- Casting an integer into the range test. -/
theorem intInRange_intCast (n : ℤ) (lo hi : ℚ) (h1 : lo ≤ (n : ℚ)) (h2 : (n : ℚ) ≤ hi) :
    intInRange (.num (n : ℚ)) lo hi = true := by
  simp [intInRange, Rat.den_intCast, h1, h2]

/-- Unpacking the integer range test. -/
theorem intInRange_elim (v : PyVal) (lo hi : ℚ) (h : intInRange v lo hi = true) :
    ∃ q : ℚ, v = .num q ∧ q.den = 1 ∧ lo ≤ q ∧ q ≤ hi := by
  cases v <;> simp [intInRange] at h
  exact ⟨_, rfl, h.1, h.2.1, h.2.2⟩

/-- Unpacking the numeric range test. -/
theorem numInRange_elim (v : PyVal) (lo hi : ℚ) (h : numInRange v lo hi = true) :
    ∃ q : ℚ, v = .num q ∧ lo ≤ q ∧ q ≤ hi := by
  cases v <;> simp [numInRange] at h
  exact ⟨_, rfl, h.1, h.2⟩

/-- Reassigning the value a key already holds leaves the dict unchanged. -/
theorem dictSet_self (d : List (String × PyVal)) (k : String) (v : PyVal)
    (h : dictGet? d k = some v) : dictSet d k v = d := by
  induction d with
  | nil => simp [dictGet?] at h
  | cons kv t ih =>
    obtain ⟨k', v'⟩ := kv
    by_cases hk : k' = k
    · subst hk
      simp [dictGet?] at h
      simp [dictSet, h]
    · simp only [dictGet?, if_neg hk] at h
      simp [dictSet, hk, ih h]

/-- Unfolding the distinct-keys test on a cons cell. -/
theorem keysDistinct_cons (k : String) (v : PyVal) (t : List (String × PyVal)) :
    keysDistinct ((k, v) :: t) = true ↔
      (∀ kv ∈ t, kv.1 ≠ k) ∧ keysDistinct t = true := by
  simp [keysDistinct, List.any_eq_true]

/-- In a duplicate-free dict, every binding is found by lookup. -/
theorem dictGet_of_mem (d : List (String × PyVal)) (hd : keysDistinct d = true)
    (k : String) (v : PyVal) (hmem : (k, v) ∈ d) : dictGet? d k = some v := by
  induction d with
  | nil => simp at hmem
  | cons kv t ih =>
    obtain ⟨k', v'⟩ := kv
    rw [keysDistinct_cons] at hd
    rcases List.mem_cons.mp hmem with heq | hmem2
    · injection heq with h1 h2
      subst h1
      subst h2
      simp [dictGet?]
    · have hk : ¬ (k' = k) := fun he => (hd.1 (k, v) hmem2) he.symm
      simp only [dictGet?]
      rw [if_neg hk]
      exact ih hd.2 hmem2

/-- dict.update with bindings the dict already holds is the identity. -/
theorem dictUpdate_of_lookup (d u : List (String × PyVal))
    (h : ∀ kv ∈ u, dictGet? d kv.1 = some kv.2) : dictUpdate d u = d := by
  induction u with
  | nil => rfl
  | cons kv t ih =>
    have h1 : dictSet d kv.1 kv.2 = d := dictSet_self d kv.1 kv.2 (h kv (List.mem_cons_self kv t))
    show dictUpdate (dictSet d kv.1 kv.2) t = d
    rw [h1]
    exact ih (fun x hx => h x (List.mem_cons_of_mem kv hx))

/-- Updating a duplicate-free dict with itself changes nothing. -/
theorem dictUpdate_self (d : List (String × PyVal)) (hd : keysDistinct d = true) :
    dictUpdate d d = d :=
  dictUpdate_of_lookup d d (fun kv hkv => by
    obtain ⟨a, b⟩ := kv
    exact dictGet_of_mem d hd a b hkv)

/-- The keys present after an assignment are the old keys plus the assigned one. -/
theorem mem_dictSet_keys (t : List (String × PyVal)) (k : String) (v : PyVal) (key : String) :
    (∃ kv ∈ dictSet t k v, kv.1 = key) ↔ key = k ∨ ∃ kv ∈ t, kv.1 = key := by
  induction t with
  | nil => simp [dictSet, eq_comm]
  | cons hd tl ih =>
    obtain ⟨k', v'⟩ := hd
    by_cases hk : k' = k
    · subst hk
      simp only [dictSet, if_pos rfl]
      simp [List.mem_cons, eq_comm]
    · simp only [dictSet, if_neg hk]
      simp only [List.mem_cons] at *
      constructor
      · rintro ⟨kv, hkv | hkv, hke⟩
        · right; exact ⟨kv, Or.inl hkv, hke⟩
        · rcases (ih).mp ⟨kv, hkv, hke⟩ with h1 | ⟨x, hx, hxe⟩
          · exact Or.inl h1
          · exact Or.inr ⟨x, Or.inr hx, hxe⟩
      · rintro (h1 | ⟨x, hx | hx, hxe⟩)
        · rcases (ih).mpr (Or.inl h1) with ⟨y, hy, hye⟩
          exact ⟨y, Or.inr hy, hye⟩
        · exact ⟨x, Or.inl hx, hxe⟩
        · rcases (ih).mpr (Or.inr ⟨x, hx, hxe⟩) with ⟨y, hy, hye⟩
          exact ⟨y, Or.inr hy, hye⟩

/-- Assignment preserves key distinctness. -/
theorem keysDistinct_dictSet (k : String) (v : PyVal) :
    ∀ d, keysDistinct d = true → keysDistinct (dictSet d k v) = true := by
  intro d
  induction d with
  | nil =>
    intro _
    simp [dictSet, keysDistinct]
  | cons hd tl ih =>
    obtain ⟨k', v'⟩ := hd
    intro hdist
    rw [keysDistinct_cons] at hdist
    by_cases hk : k' = k
    · subst hk
      simp only [dictSet, eq_self_iff_true, if_true]
      rw [keysDistinct_cons]
      exact hdist
    · simp only [dictSet, if_neg hk]
      rw [keysDistinct_cons]
      refine ⟨?_, ih hdist.2⟩
      intro kv hkv he
      rcases (mem_dictSet_keys tl k v k').mp ⟨kv, hkv, he⟩ with h1 | ⟨x, hx, hxk⟩
      · exact hk h1
      · exact hdist.1 x hx hxk

/-- dict.update preserves key distinctness of the base dict, whatever bindings
arrive. -/
theorem keysDistinct_dictUpdate (u : List (String × PyVal)) :
    ∀ d, keysDistinct d = true → keysDistinct (dictUpdate d u) = true := by
  induction u with
  | nil => intro d h; exact h
  | cons kv t ih =>
    intro d h
    show keysDistinct (dictUpdate (dictSet d kv.1 kv.2) t) = true
    exact ih _ (keysDistinct_dictSet kv.1 kv.2 d h)

/-- Bind on a successful Except computation. -/
theorem exbind_ok {α β : Type} (a : α) (f : α → Except Unit β) :
    (Except.ok a >>= f) = f a := rfl

/-- Unfolding validate_config when all three fallible sections succeed. -/
theorem validate_config_eq (s : Sections) (x : List (String × PyVal))
    (mon : MonitoringS) (th : ThresholdsS) (lg : LoggingS)
    (hm : validateMonitoring s.monitoring x = .ok mon)
    (ht : validateThresholds s.thresholds x = .ok th)
    (hl : validateLogging s.logging x = .ok lg) :
    validate_config s x = .ok ⟨mon, th, lg, validateUi s.ui x⟩ := by
  unfold validate_config
  rw [hm, ht, hl]
  rfl

/-- Unfolding validateThresholds on a dict-valued thresholds entry. -/
theorem validateThresholds_eq (s : ThresholdsS) (x : List (String × PyVal))
    (t : List (String × PyVal)) (hcfg : dictGet? x ("thresholds") = some (.dict t)) :
    validateThresholds s x = (do
      let c ← threshStep s.cpu_alert (dictGet? t ("cpu_alert"))
      let m ← threshStep s.memory_alert (dictGet? t ("memory_alert"))
      let d ← threshStep s.disk_alert (dictGet? t ("disk_alert"))
      Except.ok ⟨c, m, d⟩) := by
  unfold validateThresholds
  rw [hcfg]

/-- A per-key threshold step succeeds when int() accepts the supplied value. -/
theorem threshStep_isOk (old : PyVal) (entry : Option PyVal)
    (h : (match entry with
          | some v => exceptOk (pyInt v)
          | Option.none => true) = true) :
    ∃ w, threshStep old entry = .ok w := by
  cases entry with
  | none => exact ⟨old, rfl⟩
  | some v => exact clampThreshold_isOk v h

/-- A successful per-key threshold step yields an in-range integer when the old
value was one. -/
theorem threshStep_range (old : PyVal) (entry : Option PyVal) (w : PyVal)
    (hold : intInRange old 0 100 = true)
    (h : threshStep old entry = .ok w) :
    intInRange w 0 100 = true := by
  cases entry with
  | none =>
    injection h with h2
    subst h2
    exact hold
  | some v =>
    obtain ⟨n, hw, h0, h1⟩ := clampThreshold_spec v w h
    rw [hw]
    exact intInRange_intCast n 0 100 (by exact_mod_cast h0) (by exact_mod_cast h1)

/-- validateMonitoring succeeds whenever the supplied interval (if any) is
numeric. -/
theorem validateMonitoring_isOk (s : MonitoringS) (x : List (String × PyVal))
    (hc : (match dictGet? x ("monitoring") with
           | some (.dict m) => (pyNumVal (dictGetD m ("interval_seconds") (.num 10))).isSome
           | _ => true) = true) :
    ∃ m2, validateMonitoring s x = .ok m2 := by
  cases hcfg : dictGet? x ("monitoring") with
  | none => exact ⟨s, by unfold validateMonitoring; rw [hcfg]⟩
  | some v =>
    cases v
    case dict m =>
      simp only [hcfg] at hc
      obtain ⟨w, hw⟩ := clampInterval_isOk _ hc
      have heq : validateMonitoring s x
          = (clampInterval (dictGetD m ("interval_seconds") (.num 10))).map
              (fun iv => { enabled := dictGetD m ("enabled") (.bool true),
                           interval_seconds := iv }) := by
        unfold validateMonitoring
        rw [hcfg]
      refine ⟨{ enabled := dictGetD m ("enabled") (.bool true), interval_seconds := w }, ?_⟩
      rw [heq, hw]
      rfl
    all_goals exact ⟨s, by unfold validateMonitoring; rw [hcfg]⟩

/-- A successful validateMonitoring keeps the interval an in-range number. -/
theorem validateMonitoring_range (s : MonitoringS) (x : List (String × PyVal))
    (m2 : MonitoringS) (hs : numInRange s.interval_seconds 1 3600 = true)
    (h : validateMonitoring s x = .ok m2) :
    numInRange m2.interval_seconds 1 3600 = true := by
  cases hcfg : dictGet? x ("monitoring") with
  | none =>
    have heq : validateMonitoring s x = .ok s := by unfold validateMonitoring; rw [hcfg]
    rw [heq] at h
    injection h with h2
    subst h2
    exact hs
  | some v =>
    cases v
    case dict m =>
      have heq : validateMonitoring s x
          = (clampInterval (dictGetD m ("interval_seconds") (.num 10))).map
              (fun iv => { enabled := dictGetD m ("enabled") (.bool true),
                           interval_seconds := iv }) := by
        unfold validateMonitoring
        rw [hcfg]
      rw [heq] at h
      cases hcl : clampInterval (dictGetD m ("interval_seconds") (.num 10)) with
      | error e =>
        rw [hcl] at h
        exact Except.noConfusion h
      | ok w =>
        rw [hcl] at h
        obtain ⟨r, hr, hr1, hr2⟩ := clampInterval_spec _ _ hcl
        have hm2 : m2 = { enabled := dictGetD m ("enabled") (.bool true),
                          interval_seconds := w } := by
          simp only [Except.map, Except.ok.injEq] at h
          exact h.symm
        rw [hm2]
        show numInRange w 1 3600 = true
        rw [hr]
        simp [numInRange, hr1, hr2]
    all_goals
      have heq : validateMonitoring s x = .ok s := by unfold validateMonitoring; rw [hcfg]
      rw [heq] at h
      injection h with h2
      subst h2
      exact hs

/-- validateThresholds succeeds whenever each supplied alert value is
int()-convertible. -/
theorem validateThresholds_isOk (s : ThresholdsS) (x : List (String × PyVal))
    (hc : (match dictGet? x ("thresholds") with
           | some (.dict t) =>
             (match dictGet? t ("cpu_alert") with
              | some v => exceptOk (pyInt v)
              | Option.none => true) &&
             (match dictGet? t ("memory_alert") with
              | some v => exceptOk (pyInt v)
              | Option.none => true) &&
             (match dictGet? t ("disk_alert") with
              | some v => exceptOk (pyInt v)
              | Option.none => true)
           | _ => true) = true) :
    ∃ t2, validateThresholds s x = .ok t2 := by
  cases hcfg : dictGet? x ("thresholds") with
  | none => exact ⟨s, by unfold validateThresholds; rw [hcfg]⟩
  | some v =>
    cases v
    case dict t =>
      simp only [hcfg, Bool.and_eq_true] at hc
      obtain ⟨⟨hc1, hc2⟩, hc3⟩ := hc
      obtain ⟨c, hc⟩ := threshStep_isOk s.cpu_alert (dictGet? t ("cpu_alert")) hc1
      obtain ⟨m, hm⟩ := threshStep_isOk s.memory_alert (dictGet? t ("memory_alert")) hc2
      obtain ⟨d, hd⟩ := threshStep_isOk s.disk_alert (dictGet? t ("disk_alert")) hc3
      refine ⟨⟨c, m, d⟩, ?_⟩
      rw [validateThresholds_eq s x t hcfg, hc, exbind_ok, hm, exbind_ok, hd, exbind_ok]
    all_goals exact ⟨s, by unfold validateThresholds; rw [hcfg]⟩

/-- A successful validateThresholds keeps all three alerts in-range integers. -/
theorem validateThresholds_range (s : ThresholdsS) (x : List (String × PyVal))
    (t2 : ThresholdsS)
    (hsc : intInRange s.cpu_alert 0 100 = true)
    (hsm : intInRange s.memory_alert 0 100 = true)
    (hsd : intInRange s.disk_alert 0 100 = true)
    (h : validateThresholds s x = .ok t2) :
    intInRange t2.cpu_alert 0 100 = true ∧ intInRange t2.memory_alert 0 100 = true ∧
      intInRange t2.disk_alert 0 100 = true := by
  cases hcfg : dictGet? x ("thresholds") with
  | none =>
    have heq : validateThresholds s x = .ok s := by unfold validateThresholds; rw [hcfg]
    rw [heq] at h
    injection h with h2
    subst h2
    exact ⟨hsc, hsm, hsd⟩
  | some v =>
    cases v
    case dict t =>
      rw [validateThresholds_eq s x t hcfg] at h
      cases h1 : threshStep s.cpu_alert (dictGet? t ("cpu_alert")) with
      | error e =>
        rw [h1] at h
        exact Except.noConfusion h
      | ok c =>
        rw [h1, exbind_ok] at h
        cases h2 : threshStep s.memory_alert (dictGet? t ("memory_alert")) with
        | error e =>
          rw [h2] at h
          exact Except.noConfusion h
        | ok m =>
          rw [h2, exbind_ok] at h
          cases h3 : threshStep s.disk_alert (dictGet? t ("disk_alert")) with
          | error e =>
            rw [h3] at h
            exact Except.noConfusion h
          | ok d =>
            rw [h3, exbind_ok] at h
            injection h with h4
            subst h4
            exact ⟨threshStep_range s.cpu_alert _ c hsc h1,
                   threshStep_range s.memory_alert _ m hsm h2,
                   threshStep_range s.disk_alert _ d hsd h3⟩
    all_goals
      have heq : validateThresholds s x = .ok s := by unfold validateThresholds; rw [hcfg]
      rw [heq] at h
      injection h with h2
      subst h2
      exact ⟨hsc, hsm, hsd⟩

/-- validateLogging succeeds whenever the supplied retention (if any) is
int()-convertible. -/
theorem validateLogging_isOk (s : LoggingS) (x : List (String × PyVal))
    (hc : (match dictGet? x ("logging") with
           | some (.dict lg) => exceptOk (pyInt (dictGetD lg ("retention_days") (.num 90)))
           | _ => true) = true) :
    ∃ l2, validateLogging s x = .ok l2 := by
  cases hcfg : dictGet? x ("logging") with
  | none => exact ⟨s, by unfold validateLogging; rw [hcfg]⟩
  | some v =>
    cases v
    case dict lg =>
      simp only [hcfg] at hc
      obtain ⟨w, hw⟩ := clampRetention_isOk _ hc
      have heq : validateLogging s x
          = (clampRetention (dictGetD lg ("retention_days") (.num 90))).map
              (fun rv =>
                { enabled := dictGetD lg ("enabled") (.bool true)
                  retention_days := rv
                  level := dictGetD lg ("level") (.str ("INFO")) }) := by
        unfold validateLogging
        rw [hcfg]
      refine ⟨{ enabled := dictGetD lg ("enabled") (.bool true), retention_days := w,
                level := dictGetD lg ("level") (.str ("INFO")) }, ?_⟩
      rw [heq, hw]
      rfl
    all_goals exact ⟨s, by unfold validateLogging; rw [hcfg]⟩

/-- A successful validateLogging keeps the retention an in-range integer. -/
theorem validateLogging_range (s : LoggingS) (x : List (String × PyVal))
    (l2 : LoggingS) (hs : intInRange s.retention_days 1 365 = true)
    (h : validateLogging s x = .ok l2) :
    intInRange l2.retention_days 1 365 = true := by
  cases hcfg : dictGet? x ("logging") with
  | none =>
    have heq : validateLogging s x = .ok s := by unfold validateLogging; rw [hcfg]
    rw [heq] at h
    injection h with h2
    subst h2
    exact hs
  | some v =>
    cases v
    case dict lg =>
      have heq : validateLogging s x
          = (clampRetention (dictGetD lg ("retention_days") (.num 90))).map
              (fun rv =>
                { enabled := dictGetD lg ("enabled") (.bool true)
                  retention_days := rv
                  level := dictGetD lg ("level") (.str ("INFO")) }) := by
        unfold validateLogging
        rw [hcfg]
      rw [heq] at h
      cases hcl : clampRetention (dictGetD lg ("retention_days") (.num 90)) with
      | error e =>
        rw [hcl] at h
        exact Except.noConfusion h
      | ok w =>
        rw [hcl] at h
        obtain ⟨n, hw, hn1, hn2⟩ := clampRetention_spec _ _ hcl
        have hl2 : l2 = { enabled := dictGetD lg ("enabled") (.bool true)
                          retention_days := w
                          level := dictGetD lg ("level") (.str ("INFO")) } := by
          simp only [Except.map, Except.ok.injEq] at h
          exact h.symm
        rw [hl2]
        show intInRange w 1 365 = true
        rw [hw]
        exact intInRange_intCast n 1 365 (by exact_mod_cast hn1) (by exact_mod_cast hn2)
    all_goals
      have heq : validateLogging s x = .ok s := by unfold validateLogging; rw [hcfg]
      rw [heq] at h
      injection h with h2
      subst h2
      exact hs

/-- validateUi keeps the ui keys duplicate-free. -/
theorem validateUi_distinct (u : List (String × PyVal)) (x : List (String × PyVal))
    (hu : keysDistinct u = true) : keysDistinct (validateUi u x) = true := by
  cases hcfg : dictGet? x ("ui") with
  | none =>
    have heq : validateUi u x = u := by unfold validateUi; rw [hcfg]
    rw [heq]
    exact hu
  | some v =>
    cases v
    case dict w =>
      have heq : validateUi u x = dictUpdate u w := by unfold validateUi; rw [hcfg]
      rw [heq]
      exact keysDistinct_dictUpdate w u hu
    all_goals
      have heq : validateUi u x = u := by unfold validateUi; rw [hcfg]
      rw [heq]
      exact hu

/-- Every successful validation preserves the section invariant. -/
theorem validate_config_preserves_OK (s : Sections) (x : List (String × PyVal))
    (s2 : Sections) (hs : SectionsOK s) (h : validate_config s x = .ok s2) :
    SectionsOK s2 := by
  obtain ⟨h1, h2, h3, h4, h5, h6⟩ := hs
  cases hm : validateMonitoring s.monitoring x with
  | error e =>
    have hcontra : validate_config s x = .error e := by
      unfold validate_config
      rw [hm]
      rfl
    rw [hcontra] at h
    exact Except.noConfusion h
  | ok mon =>
  cases ht : validateThresholds s.thresholds x with
  | error e =>
    have hcontra : validate_config s x = .error e := by
      unfold validate_config
      rw [hm, exbind_ok, ht]
      rfl
    rw [hcontra] at h
    exact Except.noConfusion h
  | ok th =>
  cases hl : validateLogging s.logging x with
  | error e =>
    have hcontra : validate_config s x = .error e := by
      unfold validate_config
      rw [hm, exbind_ok, ht, exbind_ok, hl]
      rfl
    rw [hcontra] at h
    exact Except.noConfusion h
  | ok lg =>
    rw [validate_config_eq s x mon th lg hm ht hl] at h
    injection h with h7
    subst h7
    obtain ⟨hth1, hth2, hth3⟩ := validateThresholds_range s.thresholds x th h2 h3 h4 ht
    exact ⟨validateMonitoring_range s.monitoring x mon h1 hm, hth1, hth2, hth3,
           validateLogging_range s.logging x lg h5 hl,
           validateUi_distinct s.ui x h6⟩

/-- Feeding a validated config back into the monitoring block reproduces it. -/
theorem validateMonitoring_roundtrip (s : Sections)
    (h : numInRange s.monitoring.interval_seconds 1 3600 = true) :
    validateMonitoring s.monitoring (toRawConfig s) = .ok s.monitoring := by
  obtain ⟨q, hq, h1, h2⟩ := numInRange_elim _ _ _ h
  have heq : validateMonitoring s.monitoring (toRawConfig s)
      = (clampInterval s.monitoring.interval_seconds).map
          (fun iv => { enabled := s.monitoring.enabled, interval_seconds := iv }) := rfl
  rw [heq, hq, clampInterval_fixed q h1 h2]
  rw [← hq]
  rfl

/-- Feeding a validated config back into the thresholds block reproduces it. -/
theorem validateThresholds_roundtrip (s : Sections)
    (hc : intInRange s.thresholds.cpu_alert 0 100 = true)
    (hm : intInRange s.thresholds.memory_alert 0 100 = true)
    (hd : intInRange s.thresholds.disk_alert 0 100 = true) :
    validateThresholds s.thresholds (toRawConfig s) = .ok s.thresholds := by
  obtain ⟨qc, hqc, hdc, hc0, hc1⟩ := intInRange_elim _ _ _ hc
  obtain ⟨qm, hqm, hdm, hm0, hm1⟩ := intInRange_elim _ _ _ hm
  obtain ⟨qd, hqd, hdd, hd0, hd1⟩ := intInRange_elim _ _ _ hd
  have heq : validateThresholds s.thresholds (toRawConfig s)
      = (do
          let c ← threshStep s.thresholds.cpu_alert (some s.thresholds.cpu_alert)
          let m ← threshStep s.thresholds.memory_alert (some s.thresholds.memory_alert)
          let d ← threshStep s.thresholds.disk_alert (some s.thresholds.disk_alert)
          Except.ok ⟨c, m, d⟩) := rfl
  have hstep1 : threshStep s.thresholds.cpu_alert (some s.thresholds.cpu_alert)
      = .ok s.thresholds.cpu_alert := by
    show clampThreshold s.thresholds.cpu_alert = .ok s.thresholds.cpu_alert
    rw [hqc]
    exact clampThreshold_fixed qc hdc hc0 hc1
  have hstep2 : threshStep s.thresholds.memory_alert (some s.thresholds.memory_alert)
      = .ok s.thresholds.memory_alert := by
    show clampThreshold s.thresholds.memory_alert = .ok s.thresholds.memory_alert
    rw [hqm]
    exact clampThreshold_fixed qm hdm hm0 hm1
  have hstep3 : threshStep s.thresholds.disk_alert (some s.thresholds.disk_alert)
      = .ok s.thresholds.disk_alert := by
    show clampThreshold s.thresholds.disk_alert = .ok s.thresholds.disk_alert
    rw [hqd]
    exact clampThreshold_fixed qd hdd hd0 hd1
  rw [heq, hstep1, exbind_ok, hstep2, exbind_ok, hstep3, exbind_ok]

/-- Feeding a validated config back into the logging block reproduces it. -/
theorem validateLogging_roundtrip (s : Sections)
    (h : intInRange s.logging.retention_days 1 365 = true) :
    validateLogging s.logging (toRawConfig s) = .ok s.logging := by
  obtain ⟨q, hq, hden, h1, h2⟩ := intInRange_elim _ _ _ h
  have heq : validateLogging s.logging (toRawConfig s)
      = (clampRetention s.logging.retention_days).map
          (fun rv => { enabled := s.logging.enabled, retention_days := rv,
                       level := s.logging.level }) := rfl
  rw [heq, hq, clampRetention_fixed q hden h1 h2]
  rw [← hq]
  rfl

/-- Feeding a validated config back into the ui block reproduces it. -/
theorem validateUi_roundtrip (s : Sections) (h : keysDistinct s.ui = true) :
    validateUi s.ui (toRawConfig s) = s.ui := by
  have heq : validateUi s.ui (toRawConfig s) = dictUpdate s.ui s.ui := rfl
  rw [heq]
  exact dictUpdate_self s.ui h

/-- C3 counterexample: the raw mapping that puts the string high into
thresholds.cpu_alert makes validate_config raise (Python evaluates
int("high"), which raises ValueError), so validate_config does not return for
every raw input with wrong-typed values. -/
theorem validate_config_raises_on_string_threshold :
    validate_config defaultSections
      [(("thresholds"), .dict [(("cpu_alert"), .str ("high"))])] = .error () := by
  rfl

/-- C3 (amended): from any state satisfying the section invariant (DEFAULT_CONFIG
does) and for every raw mapping whose supplied monitoring interval is numeric
and whose supplied threshold and retention values are int()-convertible,
validate_config returns without raising a config carrying all four sections (the
Sections record) with monitoring.interval_seconds in [1,3600], every threshold
in [0,100] and logging.retention_days in [1,365]. -/
theorem validate_config_total_inrange (s : Sections) (x : List (String × PyVal))
    (hs : SectionsOK s) (hx : rawTypeOK x = true) :
    ∃ s2, validate_config s x = .ok s2 ∧ SectionsOK s2 := by
  have hx2 := hx
  simp only [rawTypeOK, Bool.and_eq_true] at hx2
  obtain ⟨⟨hxm, hxt⟩, hxl⟩ := hx2
  obtain ⟨h1, h2, h3, h4, h5, h6⟩ := hs
  obtain ⟨mon, hmon⟩ := validateMonitoring_isOk s.monitoring x hxm
  obtain ⟨th, hth⟩ := validateThresholds_isOk s.thresholds x hxt
  obtain ⟨lg, hlg⟩ := validateLogging_isOk s.logging x hxl
  refine ⟨⟨mon, th, lg, validateUi s.ui x⟩, validate_config_eq s x mon th lg hmon hth hlg, ?_⟩
  obtain ⟨hth1, hth2, hth3⟩ := validateThresholds_range s.thresholds x th h2 h3 h4 hth
  exact ⟨validateMonitoring_range s.monitoring x mon h1 hmon, hth1, hth2, hth3,
         validateLogging_range s.logging x lg h5 hlg,
         validateUi_distinct s.ui x h6⟩

/-- Witness for the amended C3 at the empty mapping and the default sections. -/
theorem validate_config_total_inrange_witness :
    ∃ s2, validate_config defaultSections [] = .ok s2 ∧ SectionsOK s2 :=
  validate_config_total_inrange defaultSections []
    ⟨rfl, rfl, rfl, rfl, rfl, rfl⟩ rfl

/-- C9: config validation is idempotent.  If a validation run from a state
satisfying the section invariant returns a config, then validating that returned
config again returns it unchanged. -/
theorem validate_config_idempotent (s : Sections) (x : List (String × PyVal))
    (s2 : Sections) (hs : SectionsOK s) (h : validate_config s x = .ok s2) :
    validate_config s2 (toRawConfig s2) = .ok s2 := by
  obtain ⟨h1, h2, h3, h4, h5, h6⟩ := validate_config_preserves_OK s x s2 hs h
  have hm := validateMonitoring_roundtrip s2 h1
  have ht := validateThresholds_roundtrip s2 h2 h3 h4
  have hl := validateLogging_roundtrip s2 h5
  have hu := validateUi_roundtrip s2 h6
  unfold validate_config
  rw [hm, exbind_ok, ht, exbind_ok, hl, exbind_ok, hu]

/-- Witness for C9: validating the already-validated default config changes
nothing. -/
theorem validate_config_idempotent_witness :
    validate_config defaultSections (toRawConfig defaultSections) = .ok defaultSections :=
  validate_config_idempotent defaultSections [] defaultSections
    ⟨rfl, rfl, rfl, rfl, rfl, rfl⟩ rfl

/-- C10: validate_config writes through the shared DEFAULT_CONFIG section dicts
(the shallow copy), so a later call on an empty mapping returns whatever state
the earlier call left behind, not the documented defaults: after any successful
call that leaves state s2, validating the empty mapping returns exactly s2,
monitoring.interval_seconds included. -/
theorem validate_config_empty_sees_mutation (s : Sections) (x : List (String × PyVal))
    (s2 : Sections) (h : validate_config s x = .ok s2) :
    validate_config s2 [] = .ok s2 := by
  rfl

/-- The raw input that sets monitoring.interval_seconds to 55. -/
def intervalRaw55 : List (String × PyVal) :=
  [(("monitoring"), .dict [(("interval_seconds"), .num 55)])]

/-- The section state after validating intervalRaw55 from the defaults. -/
def mutatedSections55 : Sections :=
  { monitoring := { enabled := .bool true, interval_seconds := .num 55 }
    thresholds := defaultSections.thresholds
    logging := defaultSections.logging
    ui := defaultSections.ui }

/-- Witness for C10: after validating an input with interval 55, validating the
empty mapping returns interval 55 rather than the documented default 10. -/
theorem validate_config_empty_sees_mutation_witness :
    validate_config mutatedSections55 [] = .ok mutatedSections55 ∧
    mutatedSections55.monitoring.interval_seconds = .num 55 ∧
    PyVal.num 55 ≠ PyVal.num 10 :=
  ⟨validate_config_empty_sees_mutation defaultSections intervalRaw55 mutatedSections55 rfl,
   rfl,
   fun hcon => by
     have hnum := PyVal.num.inj hcon
     norm_num at hnum⟩

/-- A row of the system_metrics table as inserted by api_system_update
(lines 452-469): insertion order is the autoincrement id order. -/
structure MetricRow where
  ts : String
  cpu_percent : PyVal
  memory_percent : PyVal
  disk_io_mbps : PyVal
  process_count : PyVal

/-- The mutable state behind the push-based ingest: the module-level
javafx_metrics dict (initially empty, line 428) and the system_metrics table. -/
structure PushState where
  javafx_metrics : List (String × PyVal)
  system_metrics : List MetricRow

/-- The state at process start: no push ever accepted, empty table. -/
def initPushState : PushState :=
  { javafx_metrics := [], system_metrics := [] }

/-- The required fields of a pushed payload (line 441). -/
def required_fields : List String :=
  [("cpu_percent"), ("memory_percent"), ("timestamp")]

/-- The history row derived from an accepted payload (lines 464-468); absent
optional fields default to None / 0 via dict.get. -/
def mkMetricRow (now : String) (metrics : List (String × PyVal)) : MetricRow :=
  { ts := now
    cpu_percent := dictGetD metrics ("cpu_percent") PyVal.none
    memory_percent := dictGetD metrics ("memory_percent") PyVal.none
    disk_io_mbps := dictGetD metrics ("disk_io_total_mbps") (.num 0)
    process_count := dictGetD metrics ("process_count") (.num 0) }

/-- src/server.py api_system_update (lines 430-476): an empty payload or one
missing a required field is answered with HTTP 400 before any state is touched;
an accepted payload replaces javafx_metrics wholesale and appends one history
row, answering 200.  (The sqlite sink is modelled as available; a sink failure
would not change the rejection paths proved about below.) -/
def api_system_update (now : String) (s : PushState) (metrics : List (String × PyVal)) :
    ℕ × PushState :=
  if metrics.isEmpty then (400, s)
  else if !(required_fields.all fun f => dictHas metrics f) then (400, s)
  else (200, { javafx_metrics := metrics
               system_metrics := s.system_metrics ++ [mkMetricRow now metrics] })

/-- C4: a pushed payload missing at least one of the required fields
cpu_percent, memory_percent, timestamp is answered with HTTP 400 — never a
server error — and the stored external payload (and the history store) is left
exactly as it was. -/
theorem api_system_update_rejects_missing_fields (now : String) (s : PushState)
    (metrics : List (String × PyVal))
    (h : (required_fields.all fun f => dictHas metrics f) = false) :
    (api_system_update now s metrics).1 = 400 ∧ (api_system_update now s metrics).2 = s := by
  by_cases he : metrics.isEmpty
  · simp [api_system_update, he]
  · simp [api_system_update, he, h]

/-- Witness for C4: a payload carrying only cpu_percent is missing the fields
memory_percent and timestamp; it is rejected with 400 and the initial state is
untouched. -/
theorem api_system_update_rejects_missing_fields_witness :
    ((required_fields.all fun f => dictHas [(("cpu_percent"), PyVal.num 50)] f) = false) ∧
    (api_system_update ("t0") initPushState [(("cpu_percent"), PyVal.num 50)]).1 = 400 ∧
    (api_system_update ("t0") initPushState [(("cpu_percent"), PyVal.num 50)]).2
      = initPushState :=
  ⟨rfl, api_system_update_rejects_missing_fields ("t0") initPushState
    [(("cpu_percent"), PyVal.num 50)] rfl⟩

/-- The acceptance test of api_system_update: a non-empty payload carrying all
three required fields. -/
def acceptedPayload (p : List (String × PyVal)) : Bool :=
  !p.isEmpty && (required_fields.all fun f => dictHas p f)

/-- Folding a sequence of pushes through api_system_update from a given state. -/
def runPushes (now : String) (s : PushState) (hist : List (List (String × PyVal))) :
    PushState :=
  hist.foldl (fun st p => (api_system_update now st p).2) s

/-- The most recently accepted payload of a push history (later pushes win). -/
def lastAccepted : List (List (String × PyVal)) → Option (List (String × PyVal))
  | [] => Option.none
  | p :: t =>
    match lastAccepted t with
    | some q => some q
    | Option.none => if acceptedPayload p then some p else Option.none

/-- The payload store after one push: replaced wholesale when accepted,
untouched otherwise. -/
theorem api_system_update_javafx (now : String) (s : PushState)
    (p : List (String × PyVal)) :
    (api_system_update now s p).2.javafx_metrics
      = if acceptedPayload p then p else s.javafx_metrics := by
  unfold api_system_update acceptedPayload
  by_cases he : p.isEmpty <;>
    by_cases hf : (required_fields.all fun f => dictHas p f) = true <;>
      simp [he, hf]

/-- After any push history, the stored payload is the most recently accepted
push, or the starting value when none was accepted. -/
theorem runPushes_javafx (now : String) (hist : List (List (String × PyVal))) :
    ∀ s : PushState, (runPushes now s hist).javafx_metrics
      = match lastAccepted hist with
        | some p => p
        | Option.none => s.javafx_metrics := by
  induction hist with
  | nil => intro s; rfl
  | cons p t ih =>
    intro s
    show (runPushes now ((api_system_update now s p).2) t).javafx_metrics = _
    rw [ih]
    cases hlt : lastAccepted t with
    | some q => simp [lastAccepted, hlt]
    | none =>
      rw [api_system_update_javafx]
      by_cases hp : acceptedPayload p = true
      · simp [lastAccepted, hlt, hp]
      · simp [lastAccepted, hlt, hp]

/-- Whatever lastAccepted returns passed the acceptance test. -/
theorem lastAccepted_accepted (hist : List (List (String × PyVal)))
    (p : List (String × PyVal)) (h : lastAccepted hist = some p) :
    acceptedPayload p = true := by
  induction hist with
  | nil => exact Option.noConfusion h
  | cons q t ih =>
    unfold lastAccepted at h
    cases hlt : lastAccepted t with
    | some r =>
      rw [hlt] at h
      injection h with h2
      subst h2
      exact ih hlt
    | none =>
      rw [hlt] at h
      by_cases hq : acceptedPayload q = true
      · rw [if_pos hq] at h
        injection h with h2
        subst h2
        exact hq
      · rw [if_neg hq] at h
        exact Option.noConfusion h

/-- jsonify of the dict built by the native / fallback samplers. -/
def sysInfoToPy (i : SysInfo) : PyVal :=
  .dict [ (("os"), .str i.os), (("cpu_percent"), .num i.cpu_percent),
          (("memory_percent"), .num i.memory_percent),
          (("memory_available_mb"), .num i.memory_available_mb),
          (("disk_io"), .num i.disk_io), (("disk_io_write"), .num i.disk_io_write) ]

/-- The display shape built from the stored payload by api_system_info_enhanced
(lines 485-505): every enrichment field defaults via dict.get when absent. -/
def displayMap (m : List (String × PyVal)) : PyVal :=
  .dict [ (("source"), .str ("JavaFX Monitor (OSHI)")),
          (("os"), dictGetD m ("os_name") (.str ("Unknown"))),
          (("cpu_percent"), dictGetD m ("cpu_percent") (.num 0)),
          (("cpu_model"), dictGetD m ("cpu_model") (.str ("Unknown"))),
          (("cpu_cores"), .dict [ (("physical"), dictGetD m ("cpu_cores_physical") (.num 0)),
                                  (("logical"), dictGetD m ("cpu_cores_logical") (.num 0)) ]),
          (("memory_percent"), dictGetD m ("memory_percent") (.num 0)),
          (("memory_total_gb"), dictGetD m ("memory_total_gb") (.num 0)),
          (("memory_used_gb"), dictGetD m ("memory_used_gb") (.num 0)),
          (("disk_io_mbps"), dictGetD m ("disk_io_total_mbps") (.num 0)),
          (("disk_read_mbps"), dictGetD m ("disk_read_mbps") (.num 0)),
          (("disk_write_mbps"), dictGetD m ("disk_write_mbps") (.num 0)),
          (("process_count"), dictGetD m ("process_count") (.num 0)),
          (("thread_count"), dictGetD m ("thread_count") (.num 0)),
          (("top_processes"), dictGetD m ("top_processes") (.list [])),
          (("network_interfaces"), dictGetD m ("network_interfaces") (.list [])),
          (("timestamp"), dictGetD m ("timestamp") (.num 0)) ]

/-- src/server.py api_system_info_enhanced (lines 479-508): when the stored
payload dict is truthy (non-empty) answer its display mapping, otherwise fall
back to get_system_info. -/
def api_system_info_enhanced (s : PushState) (isManjaro isWindows : Bool)
    (release : String) (native : Except Unit NativeRead) (d : FakeDraws) :
    Except Unit PyVal :=
  if !s.javafx_metrics.isEmpty then .ok (displayMap s.javafx_metrics)
  else (get_system_info isManjaro isWindows release native d).map sysInfoToPy

/-- C5: after any push history since process start, the enhanced view returns
the display mapping (enrichment fields defaulted) of the latest accepted
payload when at least one push was ever accepted, and otherwise the
get_system_info fallback value. -/
theorem api_system_info_enhanced_priority (now : String)
    (hist : List (List (String × PyVal))) (isManjaro isWindows : Bool)
    (release : String) (native : Except Unit NativeRead) (d : FakeDraws) :
    api_system_info_enhanced (runPushes now initPushState hist)
        isManjaro isWindows release native d
      = match lastAccepted hist with
        | some p => .ok (displayMap p)
        | Option.none =>
          (get_system_info isManjaro isWindows release native d).map sysInfoToPy := by
  have hj := runPushes_javafx now hist initPushState
  cases hl : lastAccepted hist with
  | none =>
    rw [hl] at hj
    unfold api_system_info_enhanced
    rw [hj]
    rfl
  | some p =>
    rw [hl] at hj
    have hp := lastAccepted_accepted hist p hl
    have hpne : p.isEmpty = false := by
      unfold acceptedPayload at hp
      rw [Bool.and_eq_true] at hp
      have h1 := hp.1
      rw [Bool.not_eq_true'] at h1
      exact h1
    unfold api_system_info_enhanced
    rw [hj, hpne]
    rfl

/-- An entry met by the psutil process iterator: either a live process info
record (whose name / cpu / mem attributes may be None) or a process that
vanished mid-iteration. -/
inductive ProcEntry where
  | proc (pid : ℤ) (name : Option String) (cpu : Option ℚ) (mem : Option ℚ)
  | vanished

/-- psutil.process_iter, the external collaborator of api_processes: it yields
the live entries and silently skips processes that disappeared mid-iteration
(documented psutil behaviour the route relies on). -/
def process_iter (l : List ProcEntry) : List (ℤ × Option String × Option ℚ × Option ℚ) :=
  l.filterMap (fun e =>
    match e with
    | .proc pid name cpu mem => some (pid, name, cpu, mem)
    | .vanished => Option.none)

/-- Python truthiness of the name field (None and the empty string are falsy). -/
def truthyName : Option String → Bool
  | Option.none => false
  | some s => !(s == (""))

/-- One row of the api_processes response. -/
structure ProcRow where
  pid : ℤ
  name : Option String
  cpu : ℚ
  mem : ℚ
  risk_score : ℕ
  verdict : String
  agent : String

/-- The response row for one scored process (lines 329-342); a falsy cpu / mem
reading is reported as 0 via the `or 0` guard. -/
def procRow (pid : ℤ) (name : Option String) (cpu mem : Option ℚ) : ProcRow :=
  let r := compute_risk_and_verdict name cpu mem
  { pid := pid, name := name, cpu := cpu.getD 0, mem := mem.getD 0,
    risk_score := r.1, verdict := r.2.1, agent := r.2.2 }

/-- src/server.py api_processes (lines 321-346): iterate the live processes,
skip every entry whose name is falsy, score the rest; the surrounding
try/except turns a failure of the enumeration itself into the empty response
rather than an exception. -/
def api_processes (enum : Except Unit (List ProcEntry)) : List ProcRow :=
  match enum with
  | .error _ => []
  | .ok entries =>
    (process_iter entries).filterMap (fun i =>
      if truthyName i.2.1 then some (procRow i.1 i.2.1 i.2.2.1 i.2.2.2)
      else Option.none)

/-- C6: process enumeration skips entries with no resolvable name; a process
vanishing mid-iteration drops only that entry and never aborts the rest; and a
total enumeration failure yields the empty sequence instead of propagating. -/
theorem api_processes_tolerates_failures :
    (∀ e : Unit, api_processes (.error e) = []) ∧
    (∀ l1 l2, api_processes (.ok (l1 ++ ProcEntry.vanished :: l2))
        = api_processes (.ok (l1 ++ l2))) ∧
    (∀ (pid : ℤ) (cpu mem : Option ℚ) l1 l2,
      api_processes (.ok (l1 ++ ProcEntry.proc pid Option.none cpu mem :: l2))
        = api_processes (.ok (l1 ++ l2))) := by
  refine ⟨fun e => rfl, ?_, ?_⟩
  · intro l1 l2
    simp [api_processes, process_iter, List.filterMap_append]
  · intro pid cpu mem l1 l2
    simp [api_processes, process_iter, List.filterMap_append, truthyName]

/-- A response row of api_metrics_history. -/
structure HistRow where
  timestamp : String
  cpu_percent : PyVal
  memory_percent : PyVal
  disk_io_mbps : PyVal
  process_count : PyVal

/-- The response shape of one history row (lines 530-537). -/
def rowToHist (r : MetricRow) : HistRow :=
  { timestamp := r.ts, cpu_percent := r.cpu_percent,
    memory_percent := r.memory_percent, disk_io_mbps := r.disk_io_mbps,
    process_count := r.process_count }

/-- src/server.py api_metrics_history (lines 511-542): SELECT the system_metrics
rows ORDER BY id DESC LIMIT 100 — the last 100 inserted rows, most recent first.
The LIMIT is the fixed constant 100; the handler reads no caller-supplied
parameter at all. -/
def api_metrics_history (db : List MetricRow) : List HistRow :=
  ((db.reverse).take 100).map rowToHist

/-- Two concrete stored rows. -/
def twoMetricRows : List MetricRow :=
  [ { ts := ("t1"), cpu_percent := .num 10, memory_percent := .num 20,
      disk_io_mbps := .num 0, process_count := .num 0 },
    { ts := ("t2"), cpu_percent := .num 30, memory_percent := .num 40,
      disk_io_mbps := .num 0, process_count := .num 0 } ]

/-- C7 counterexample: with N = 2 stored rows and caller-supplied limit k = 1
the claim demands min(2,1) = 1 returned row, but the endpoint ignores every
caller limit and returns 2 rows. -/
theorem api_metrics_history_ignores_caller_limit :
    (api_metrics_history twoMetricRows).length = 2 ∧ ¬((2 : ℕ) = min 2 1) := by
  exact ⟨rfl, by decide⟩

/-- C7 (amended): the recent-metrics query returns exactly min(N, 100) rows —
the limit is the fixed constant 100, not caller-supplied — in strict
reverse-insertion order: the i-th returned row is the (N-1-i)-th inserted one. -/
theorem api_metrics_history_reverse_order (db : List MetricRow) :
    (api_metrics_history db).length = min db.length 100 ∧
    ∀ i : ℕ, i < (api_metrics_history db).length →
      (api_metrics_history db)[i]? = (db[db.length - 1 - i]?).map rowToHist := by
  constructor
  · simp [api_metrics_history, Nat.min_comm]
  · intro i hi
    have hlen : (api_metrics_history db).length = min 100 db.length := by
      simp [api_metrics_history]
    rw [hlen] at hi
    have hi100 : i < 100 := lt_of_lt_of_le hi (min_le_left _ _)
    have hidb : i < db.length := lt_of_lt_of_le hi (min_le_right _ _)
    unfold api_metrics_history
    rw [List.getElem?_map, List.getElem?_take_of_lt hi100,
        List.getElem?_reverse (by simpa using hidb)]

/-- Witness for the amended C7 at the two-row store and index 0. -/
theorem api_metrics_history_reverse_order_witness :
    (api_metrics_history twoMetricRows).length = min twoMetricRows.length 100 ∧
    (api_metrics_history twoMetricRows)[0]?
      = (twoMetricRows[twoMetricRows.length - 1 - 0]?).map rowToHist :=
  ⟨(api_metrics_history_reverse_order twoMetricRows).1,
   (api_metrics_history_reverse_order twoMetricRows).2 0 (by decide)⟩

/-- A file in the logs directory: name, last-modified time and content lines. -/
structure LogFile where
  name : String
  mtime : ℚ
  lines : List String

/-- String prefix test via the underlying character lists. -/
def strStarts (pre s : String) : Bool :=
  listStarts pre.toList s.toList

/-- String suffix test via the reversed character lists. -/
def strEnds (suf s : String) : Bool :=
  listStarts suf.toList.reverse s.toList.reverse

/-- The glob privara_*.log used by both the purge and the retention cleanup.
For this pattern the prefix/suffix pair is exact: no shorter name can satisfy
both tests, so the star segment is simply whatever stands between them. -/
def isLogArtifact (n : String) : Bool :=
  strStarts ("privara_") n && strEnds (".log") n

/-- The file write of write_log: append the line to the named file, creating it
when absent, and stamp its mtime with the current time. -/
def appendLine (fs : List LogFile) (name : String) (now : ℚ) (line : String) :
    List LogFile :=
  if fs.any (fun f => f.name == name) then
    fs.map (fun f =>
      if f.name == name then { f with mtime := now, lines := f.lines ++ [line] } else f)
  else fs ++ [{ name := name, mtime := now, lines := [line] }]

/-- src/server.py cleanup_old_logs (lines 182-192): delete every privara_*.log
file whose mtime lies before the retention cutoff. -/
def cleanup_old_logs (retention_days : ℚ) (now : ℚ) (fs : List LogFile) : List LogFile :=
  fs.filter (fun f =>
    !(isLogArtifact f.name && decide (f.mtime < now - retention_days * 86400)))

/-- The log line format of write_log (line 176). -/
def logLine (iso level msg : String) : String :=
  ("[") ++ iso ++ ("] [") ++ level ++ ("] ") ++ msg

/-- src/server.py write_log (lines 166-180): do nothing when logging is
disabled; otherwise append the formatted line to today's privara_ file and run
the retention cleanup. -/
def write_log (logEnabled : Bool) (retention_days : ℚ) (now : ℚ) (iso : String)
    (todayDate : String) (level msg : String) (fs : List LogFile) : List LogFile :=
  if !logEnabled then fs
  else cleanup_old_logs retention_days now
    (appendLine fs (("privara_") ++ todayDate ++ (".log")) now (logLine iso level msg))

/-- The message api_delete_logs logs after the purge (line 390). -/
def purgeMessage (n : ℕ) : String :=
  ("All ") ++ toString n ++ (" logs deleted via user request (GDPR Right to be Forgotten)")

/-- src/server.py api_delete_logs (lines 381-393): unlink every privara_*.log
file, then log a WARNING carrying the count of files just deleted (write_log
re-creates today's log file inside the same directory), and answer 200 with the
count.  The result is (status, reported deleted count, final directory state). -/
def api_delete_logs (logEnabled : Bool) (retention_days : ℚ) (now : ℚ) (iso : String)
    (todayDate : String) (fs : List LogFile) : ℕ × ℕ × List LogFile :=
  let deleted := (fs.filter (fun f => isLogArtifact f.name)).length
  let fs1 := fs.filter (fun f => !isLogArtifact f.name)
  let fs2 := write_log logEnabled retention_days now iso todayDate ("WARNING")
    (purgeMessage deleted) fs1
  (200, deleted, fs2)

/-- A list prefix of itself extended on the right. -/
theorem listStarts_self_append (pre x : List Char) : listStarts pre (pre ++ x) = true := by
  induction pre with
  | nil => rfl
  | cons c t ih => simp [listStarts, ih]

/-- Today's log file name always matches the purge glob. -/
theorem todayName_isArtifact (d : String) :
    isLogArtifact (("privara_") ++ d ++ (".log")) = true := by
  unfold isLogArtifact strStarts strEnds
  have h1 : (("privara_") ++ d ++ (".log")).toList
      = ("privara_").toList ++ (d.toList ++ (".log").toList) := by
    show (("privara_") ++ d ++ (".log")).data
        = ("privara_").data ++ (d.data ++ (".log").data)
    simp [String.data_append]
  have h2 : (("privara_") ++ d ++ (".log")).toList.reverse
      = (".log").toList.reverse ++ (d.toList.reverse ++ ("privara_").toList.reverse) := by
    rw [h1]
    simp [List.reverse_append]
  rw [h2, h1, listStarts_self_append, listStarts_self_append]
  rfl

/-- One concrete pre-purge directory: a single old log artifact. -/
def prePurgeLogs : List LogFile :=
  [ { name := ("privara_20260101.log"), mtime := 0, lines := [("old line")] } ]

/-- C8 counterexample: with the default config (logging enabled, retention 90)
the purge leaves one log artifact — the freshly written today's log carrying the
purge event — so the count of retained artifacts after the operation is 1, not
0 as the claim demands. -/
theorem api_delete_logs_leaves_one_artifact :
    ((api_delete_logs true 90 1000000 ("ts") ("20261012") prePurgeLogs).2.2.filter
        (fun f => isLogArtifact f.name)).length = 1 ∧ ¬((1 : ℕ) = 0) := by
  refine ⟨?_, by decide⟩
  have hd : decide ((1000000 : ℚ) < 1000000 - 90 * 86400) = false :=
    decide_eq_false (by norm_num)
  have hart : isLogArtifact (("privara_") ++ ("20261012") ++ (".log")) = true :=
    todayName_isArtifact ("20261012")
  show ((cleanup_old_logs 90 1000000
      [(⟨("privara_") ++ ("20261012") ++ (".log"), 1000000,
        [logLine ("ts") ("WARNING") (purgeMessage 1)]⟩ : LogFile)]).filter
      (fun f => isLogArtifact f.name)).length = 1
  simp only [cleanup_old_logs, List.filter_cons, List.filter_nil, hd, Bool.and_false,
    Bool.not_false, if_true]
  decide

/-- C8 (amended): with logging enabled (the default) and a nonnegative retention
window, the purge answers 200, reports exactly the number of artifacts it
removed, and deletes every artifact that was present before the call; the audit
record of the purge is written after the deletion back into the purged
directory, so afterwards the artifact set is exactly one fresh file — today's
log holding the purge line.  The record therefore survives this purge, while
the retained artifact count is 1 rather than 0. -/
theorem api_delete_logs_purges_and_logs (retention_days : ℚ) (now : ℚ)
    (iso todayDate : String) (fs : List LogFile) (hr : 0 ≤ retention_days) :
    (api_delete_logs true retention_days now iso todayDate fs).1 = 200 ∧
    (api_delete_logs true retention_days now iso todayDate fs).2.1
      = (fs.filter (fun f => isLogArtifact f.name)).length ∧
    ((api_delete_logs true retention_days now iso todayDate fs).2.2.filter
        (fun f => isLogArtifact f.name))
      = [(⟨("privara_") ++ todayDate ++ (".log"), now,
          [logLine iso ("WARNING")
            (purgeMessage (fs.filter (fun f => isLogArtifact f.name)).length)]⟩ :
          LogFile)] := by
  refine ⟨rfl, rfl, ?_⟩
  have hfs1 : ∀ f ∈ fs.filter (fun f => !isLogArtifact f.name),
      isLogArtifact f.name = false := by
    intro f hf
    have hmem := (List.mem_filter.mp hf).2
    rwa [Bool.not_eq_true'] at hmem
  have hany : ((fs.filter (fun f => !isLogArtifact f.name)).any
      (fun f => f.name == (("privara_") ++ todayDate ++ (".log")))) = false := by
    rw [List.any_eq_false]
    intro f hf hcon
    have hname : f.name = ("privara_") ++ todayDate ++ (".log") := by
      simpa using hcon
    have h1 := hfs1 f hf
    rw [hname, todayName_isArtifact todayDate] at h1
    exact Bool.noConfusion h1
  have happend : appendLine (fs.filter (fun f => !isLogArtifact f.name))
      (("privara_") ++ todayDate ++ (".log")) now
      (logLine iso ("WARNING")
        (purgeMessage (fs.filter (fun f => isLogArtifact f.name)).length))
      = fs.filter (fun f => !isLogArtifact f.name)
        ++ [(⟨("privara_") ++ todayDate ++ (".log"), now,
             [logLine iso ("WARNING")
               (purgeMessage (fs.filter (fun f => isLogArtifact f.name)).length)]⟩ :
             LogFile)] := by
    unfold appendLine
    rw [hany]
    rfl
  have hfresh : ¬(now < now - retention_days * 86400) := by
    have h86 : 0 ≤ retention_days * 86400 := mul_nonneg hr (by norm_num)
    exact not_lt.mpr (sub_le_self now h86)
  show (write_log true retention_days now iso todayDate ("WARNING")
      (purgeMessage (fs.filter (fun f => isLogArtifact f.name)).length)
      (fs.filter (fun f => !isLogArtifact f.name))).filter
        (fun f => isLogArtifact f.name) = _
  unfold write_log
  rw [Bool.not_true, if_neg (by simp)]
  rw [happend]
  unfold cleanup_old_logs
  rw [List.filter_append]
  have hkeep : (fs.filter (fun f => !isLogArtifact f.name)).filter
      (fun f => !(isLogArtifact f.name
        && decide (f.mtime < now - retention_days * 86400)))
      = fs.filter (fun f => !isLogArtifact f.name) := by
    rw [List.filter_eq_self]
    intro f hf
    rw [hfs1 f hf]
    simp
  rw [hkeep]
  have hnewgen : ∀ g : LogFile, g.mtime = now →
      List.filter (fun f => !(isLogArtifact f.name
        && decide (f.mtime < now - retention_days * 86400))) [g] = [g] := by
    intro g hm
    simp [hm, hfresh]
  rw [hnewgen _ rfl, List.filter_append]
  have hdrop : (fs.filter (fun f => !isLogArtifact f.name)).filter
      (fun f => isLogArtifact f.name) = [] := by
    rw [List.filter_eq_nil_iff]
    intro f hf
    rw [hfs1 f hf]
    exact Bool.false_ne_true
  rw [hdrop]
  simp [todayName_isArtifact todayDate]

/-- Witness for the amended C8 at the concrete pre-purge directory. -/
theorem api_delete_logs_purges_and_logs_witness :
    (api_delete_logs true 90 1000000 ("ts") ("20261012") prePurgeLogs).1 = 200 ∧
    (api_delete_logs true 90 1000000 ("ts") ("20261012") prePurgeLogs).2.1
      = (prePurgeLogs.filter (fun f => isLogArtifact f.name)).length ∧
    ((api_delete_logs true 90 1000000 ("ts") ("20261012") prePurgeLogs).2.2.filter
        (fun f => isLogArtifact f.name))
      = [(⟨("privara_") ++ ("20261012") ++ (".log"), 1000000,
          [logLine ("ts") ("WARNING")
            (purgeMessage (prePurgeLogs.filter
              (fun f => isLogArtifact f.name)).length)]⟩ : LogFile)] :=
  api_delete_logs_purges_and_logs 90 1000000 ("ts") ("20261012") prePurgeLogs
    (by norm_num)
